import Mathlib

/-!
# Verification of `df2pdf` (gusamarante/df2pdf)

A shallow embedding of the two rendering helpers in `src/df2pdf.py`
(`df2table` and `df2heatmap`) together with proofs about the properties
stated in the repository specification.

Modelling conventions:

* Numeric cell values are rationals (`ℚ`).  Floating-point division by zero
  (which in numpy/pandas yields the non-finite values `NaN` or `±inf`,
  never an exception) is modelled by `qdiv : ℚ → ℚ → Option ℚ`, where
  `none` stands for a non-finite result.
* A pandas `DataFrame` passed to `df2heatmap` is a list of columns, each a
  `List ℚ`; all normalization in the source is column-independent.
* Python exceptions are the constructors of `PyErr`; a function that can
  raise returns `Except PyErr _`.
* The matplotlib global configuration `rcParams` (mutated at lines 112-113
  of the source) is threaded explicitly as part of a `HeatState`.
* Object mutation in `df2table` (the source mutates `data.index` in place
  after taking a `data.copy()` at line 35) is modelled with a tiny heap:
  a list of frame objects plus the index the local variable `data` points
  to, so that the claim "the caller's DataFrame is unchanged" is a real
  statement about the heap slot the caller's object lives in.
-/

set_option autoImplicit false

namespace Df2pdf

/-- Float division as performed by numpy/pandas: a zero denominator produces
a non-finite value (`NaN` for `0/0`, `±inf` otherwise), modelled as `none`;
a nonzero denominator produces the exact rational quotient. -/
def qdiv (a b : ℚ) : Option ℚ :=
  if b = 0 then none else some (a / b)

/-- Number of entries of the column strictly below `v`. -/
def countLt (xs : List ℚ) (v : ℚ) : ℕ :=
  (xs.filter (fun y => y < v)).length

/-- Number of entries of the column equal to `v`. -/
def countEq (xs : List ℚ) (v : ℚ) : ℕ :=
  (xs.filter (fun y => y = v)).length

/-- `pandas.DataFrame.rank()` with the default `method='average'`: the rank
of a value is the average of the positions its tie group occupies in sorted
order, i.e. `countLt + (countEq + 1)/2` (a rational). -/
def rankAvg (xs : List ℚ) (v : ℚ) : ℚ :=
  (countLt xs v : ℚ) + ((countEq xs v : ℚ) + 1) / 2

/-- Line 120 of the source, per column: `(data.rank() - 1) / (data.shape[0] - 1)`. -/
def normPercentileCol (xs : List ℚ) : List (Option ℚ) :=
  xs.map (fun v => qdiv (rankAvg xs v - 1) ((xs.length : ℚ) - 1))

/-- `pandas.DataFrame.min()` of one column (the fold of binary `min`); the
value for the empty column is irrelevant because an empty column has no
cells to normalize. -/
def colMin : List ℚ → ℚ
  | [] => 0
  | [x] => x
  | x :: y :: t => min x (colMin (y :: t))

/-- `pandas.DataFrame.max()` of one column. -/
def colMax : List ℚ → ℚ
  | [] => 0
  | [x] => x
  | x :: y :: t => max x (colMax (y :: t))

/-- Line 123 of the source, per column: `(data - data.min())/(data.max() - data.min())`. -/
def normRangeCol (xs : List ℚ) : List (Option ℚ) :=
  xs.map (fun v => qdiv (v - colMin xs) (colMax xs - colMin xs))

/-- Follows the words of the specification (not the source), for comparison:
percentile normalization with "ties broken by stable rank order", i.e. the
rank of the cell at position `i` is `countLt` plus the number of *earlier*
equal entries, plus one (pandas `method='first'`), then `(rank - 1)/(N - 1)`. -/
def specPercentileStableCol (xs : List ℚ) : List (Option ℚ) :=
  (List.range xs.length).map (fun i =>
    let v := xs.getD i 0
    let r : ℚ := (countLt xs v : ℚ) + (((xs.take i).filter (fun y => y = v)).length : ℚ) + 1
    qdiv (r - 1) ((xs.length : ℚ) - 1))

/-! ## The `df2heatmap` call pipeline (lines 109-135 of the source) -/

/-- Python exceptions raised by the two functions, without their message
strings: `typeErrorLenOfNone` is `TypeError: object of type 'NoneType' has
no len()` from `len(None)`; `assertLengthMismatch` is the `AssertionError`
of line 109 ("Length of 'colors' and 'nodes' must be the same");
`assertNotImplemented` is the `AssertionError` of line 126 ("Normalization
method not implemented."); `saveFailed`/`showFailed` model an exception
propagating out of the plotting collaborator during `savefig`/`show`. -/
inductive PyErr
  | typeErrorLenOfNone
  | assertLengthMismatch
  | assertNotImplemented
  | saveFailed
  | showFailed
deriving DecidableEq, Repr

/-- A colormap: either a named matplotlib colormap (the `cmap` argument as
a string), or one built by `LinearSegmentedColormap.from_list` from
threshold/color stops (line 116). -/
inductive Cmap
  | named (s : String)
  | fromList (stops : List (ℚ × String))
deriving DecidableEq, Repr

/-- The two process-wide font settings the heatmap path writes through
`matplotlib.rcParams` (lines 112-113). -/
structure RcParams where
  fontFamily : String
  fontSansSerif : List String
deriving DecidableEq, Repr

/-- Process-wide state visible to one `df2heatmap` call: the global
`rcParams`, and whether any figure content has been rendered. -/
structure HeatState where
  rc : RcParams
  rendered : Bool
deriving DecidableEq, Repr

/-- What the single `sns.heatmap(...)` call of line 133 receives: the
normalized frame used for the cell colors, the annotation frame
(`annot=data`, the original values), the annotation format (`fmt='.2f'`)
and the colormap in force. -/
structure RenderInfo where
  colorData : List (List (Option ℚ))
  annot : List (List ℚ)
  fmt : String
  cmapUsed : Cmap
deriving DecidableEq, Repr

/-- Observable outcome of one `df2heatmap` call: the exception that
propagated (if any), the inputs of the `sns.heatmap` rendering call when
it was reached, and the process-wide state when the call ends. -/
structure HeatOutcome where
  raised : Option PyErr
  render : Option RenderInfo
  state : HeatState
deriving DecidableEq, Repr

/-- Shallow embedding of `df2heatmap` (lines 109-135): the data frame is a
list of numeric columns; `nodes`, `colors`, `cmap` and `normalize` are the
like-named parameters; `s0` is the process-wide state at call time.
Returns the outcome (the render call's inputs, or the exception raised)
together with the process-wide state when the call ends.

Statement order follows the source: the `assert len(colors) == len(nodes)`
of line 109 runs first (evaluating `len(colors)` before `len(nodes)`, so a
`None` in either raises `TypeError` before anything else); the global font
configuration is mutated at lines 112-113; the gradient is built at line
116 (its `if` guard is always true on paths that survive line 109, since
`len(None)` would have raised); the normalization dispatch is lines
119-126; the `sns.heatmap` rendering call is line 133. -/
def df2heatmap (data : List (List ℚ)) (nodes : Option (List ℚ))
    (colors : Option (List String)) (cmap : Cmap) (normalize : String)
    (s0 : HeatState) : HeatOutcome :=
  match colors with
  | none => ⟨some .typeErrorLenOfNone, none, s0⟩
  | some cs =>
    match nodes with
    | none => ⟨some .typeErrorLenOfNone, none, s0⟩
    | some ns =>
      if cs.length ≠ ns.length then
        ⟨some .assertLengthMismatch, none, s0⟩
      else
        let s1 : HeatState := { s0 with rc := ⟨"sans-serif", ["Century Gothic"]⟩ }
        let cmap1 := if nodes.isSome && colors.isSome then
          Cmap.fromList (ns.zip cs) else cmap
        if normalize = "percentile" then
          ⟨none, some ⟨data.map normPercentileCol, data, ".2f", cmap1⟩,
            { s1 with rendered := true }⟩
        else if normalize = "range" then
          ⟨none, some ⟨data.map normRangeCol, data, ".2f", cmap1⟩,
            { s1 with rendered := true }⟩
        else
          ⟨some .assertNotImplemented, none, s1⟩

/-! ## The `df2table` call pipeline (lines 35-78 of the source) -/

/-- A table cell: a numeric value or a piece of text (row labels become
text after the date-index reformatting of line 44). -/
inductive Cell
  | num (q : ℚ)
  | str (s : String)
deriving DecidableEq, Repr

/-- The index (row-label axis) of a frame: either a plain index of cells
or a pandas `DatetimeIndex`, here a list of timestamps (`ℕ`), each with an
optional name. -/
inductive Idx
  | plain (name : Option String) (labels : List Cell)
  | datetime (name : Option String) (stamps : List ℕ)
deriving DecidableEq, Repr

/-- The name on the row-label axis. -/
def Idx.axisName : Idx → Option String
  | .plain n _ => n
  | .datetime n _ => n

/-- Rename the row-label axis (`data.index.name = index_name`, line 41). -/
def Idx.setName (n : String) : Idx → Idx
  | .plain _ ls => .plain (some n) ls
  | .datetime _ ts => .datetime (some n) ts

/-- The row labels as cells (a `datetime` label surfaces as its raw stamp
when no reformatting has happened). -/
def Idx.cells : Idx → List Cell
  | .plain _ ls => ls
  | .datetime _ ts => ts.map (fun (t : ℕ) => Cell.num ((t : ℚ)))

/-- Number of row labels. -/
def Idx.len (i : Idx) : ℕ := i.cells.length

/-- A pandas `DataFrame` as `df2table` sees it: a row-label index plus
named columns of cells. -/
structure Frame where
  idx : Idx
  cols : List (String × List Cell)
deriving DecidableEq, Repr

instance : Inhabited Frame := ⟨⟨Idx.plain none [], []⟩⟩

/-- Round half to even at integer precision, the tie rule of IEEE-754
doubles and hence of `numpy.round`/`DataFrame.round`. -/
def roundHalfEven (q : ℚ) : ℤ :=
  let f := Int.floor q
  let r := q - f
  if r < 1 / 2 then f
  else if 1 / 2 < r then f + 1
  else if f % 2 = 0 then f else f + 1

/-- Round a rational to `k` decimal places (`DataFrame.round(k)` on one
numeric value). -/
def roundTo (k : ℕ) (q : ℚ) : ℚ :=
  (roundHalfEven (q * 10 ^ k) : ℚ) / 10 ^ k

/-- `DataFrame.round(k)` on one cell: numeric cells are rounded, text
cells pass through (pandas rounds only numeric columns). -/
def roundCell (k : ℕ) : Cell → Cell
  | .num q => .num (roundTo k q)
  | .str s => .str s

/-- `data.round(rounding)` (line 38): every numeric cell of every column is
rounded; the index is not a column and is untouched. -/
def roundFrame (k : ℕ) (f : Frame) : Frame :=
  { f with cols := f.cols.map (fun c => (c.1, c.2.map (roundCell k))) }

/-- Line 41: `data.index.name = index_name` (in-place mutation of the
frame the local variable points to). -/
def setIndexName (n : String) (f : Frame) : Frame :=
  { f with idx := f.idx.setName n }

/-- Lines 43-44: if the index is a `DatetimeIndex` it is replaced by the
index of display strings `data.index.strftime(date_format)`; `strftime`
keeps the axis name.  `fmtDate` stands for Python's `strftime` itself (an
opaque collaborator): it takes the format string and a timestamp. -/
def strftimeIndex (fmtDate : String → ℕ → String) (dateFormat : String)
    (f : Frame) : Frame :=
  match f.idx with
  | .datetime n ts =>
      { f with idx := .plain n (ts.map (fun t => Cell.str (fmtDate dateFormat t))) }
  | .plain _ _ => f

/-- Whether `isinstance(data.index, pd.DatetimeIndex)` holds (line 43). -/
def Frame.isDatetime (f : Frame) : Bool :=
  match f.idx with
  | .datetime _ _ => true
  | .plain _ _ => false

/-- Line 46: `data.reset_index()` — the row labels become the leftmost
column (named after the axis, or `"index"` when unnamed) and the frame
gets a fresh `RangeIndex` of the same length. -/
def resetIndex (f : Frame) : Frame :=
  { idx := .plain none ((List.range f.idx.len).map (fun (k : ℕ) => Cell.num ((k : ℚ)))),
    cols := (f.idx.axisName.getD "index", f.idx.cells) :: f.cols }

/-- A two-slot view of the Python heap during a `df2table` call: the list
of frame objects allocated so far (slot 0 holds the caller's argument) and
the slot the local variable `data` currently points to. -/
structure PyState where
  heap : List Frame
  dataRef : ℕ
deriving DecidableEq, Repr

/-- The frame the local variable `data` points to. -/
def PyState.cur (s : PyState) : Frame := s.heap.getD s.dataRef default

/-- `data = data.copy()` (line 35): allocates a fresh object holding the
same value and rebinds the local variable to it. -/
def stCopy (s : PyState) : PyState :=
  ⟨s.heap ++ [s.cur], s.heap.length⟩

/-- `data = f(data)` for a pandas method that returns a new frame
(`round`, `reset_index`): allocates the result and rebinds. -/
def stRebind (f : Frame → Frame) (s : PyState) : PyState :=
  ⟨s.heap ++ [f s.cur], s.heap.length⟩

/-- An in-place mutation of the object `data` points to
(`data.index.name = ...`, `data.index = ...`). -/
def stMutate (f : Frame → Frame) (s : PyState) : PyState :=
  ⟨s.heap.set s.dataRef (f s.cur), s.dataRef⟩

/-- Lines 35-46 of `df2table`: copy, optional rounding, optional index
rename, date-index reformatting, index reset — in source order, with the
copy/rebind/mutate distinction of each Python statement made explicit. -/
def df2tablePipeline (rounding : Option ℕ) (indexName : Option String)
    (fmtDate : String → ℕ → String) (dateFormat : String)
    (s : PyState) : PyState :=
  let s := stCopy s
  let s := match rounding with
    | none => s
    | some k => stRebind (roundFrame k) s
  let s := match indexName with
    | none => s
    | some n => stMutate (setIndexName n) s
  let s := if s.cur.isDatetime then
      stMutate (strftimeIndex fmtDate dateFormat) s
    else s
  stRebind resetIndex s

/-- `data.values` after `reset_index` (the `cellText` argument of the
`ax.table` call at line 53): row `i` holds the `i`-th entry of every
column, leftmost column first. -/
def frameValues (f : Frame) : List (List Cell) :=
  (List.range f.idx.len).map (fun i => f.cols.map (fun c => c.2.getD i (Cell.str "")))

/-- Observable outcome of one `df2table` call: the normal result or the
exception that propagated, the cell text handed to the table renderer,
whether `savefig`/`show` ran, whether `plt.close()` ran, and the caller's
frame object (heap slot 0) when the call ends. -/
structure TableOutcome where
  raised : Option PyErr
  cellText : List (List Cell)
  saved : Bool
  shown : Bool
  closed : Bool
  callerAfter : Frame
deriving DecidableEq, Repr

/-- Shallow embedding of `df2table` (lines 35-78).  `saveOk` and `showOk`
are oracles for the plotting collaborator: whether `plt.savefig(save_path)`
(line 71) and `plt.show()` (line 74) return normally or raise.  The source
has no `try`/`finally`, so an exception in either skips every later
statement, including the `plt.close()` of line 76. -/
def df2table (data : Frame) (rounding : Option ℕ) (indexName : Option String)
    (fmtDate : String → ℕ → String) (dateFormat : String)
    (savePath : Option String) (showTable : Bool)
    (saveOk showOk : Bool) : TableOutcome :=
  let s := df2tablePipeline rounding indexName fmtDate dateFormat ⟨[data], 0⟩
  let cellText := frameValues s.cur
  let callerAfter := s.heap.getD 0 default
  if savePath.isSome && !saveOk then
    { raised := some .saveFailed, cellText := cellText,
      saved := false, shown := false, closed := false,
      callerAfter := callerAfter }
  else if showTable && !showOk then
    { raised := some .showFailed, cellText := cellText,
      saved := savePath.isSome, shown := false, closed := false,
      callerAfter := callerAfter }
  else
    { raised := none, cellText := cellText,
      saved := savePath.isSome, shown := showTable, closed := true,
      callerAfter := callerAfter }

/-- The rounding `df2table` applies to a cell as a function of its
`rounding` argument: the identity when `rounding is None` (line 37), the
per-cell `DataFrame.round(k)` when a precision `k` is supplied (line 38). -/
def applyRounding : Option ℕ → Cell → Cell
  | none, c => c
  | some k, c => roundCell k c

/-- The cell of a rendered `cellText` matrix at row `i`, column `j`. -/
def cellAt (rows : List (List Cell)) (i j : ℕ) : Option Cell :=
  (rows[i]?).bind (fun row => row[j]?)

/-! ## Helper lemmas about the column statistics -/

theorem countLt_cons (x : ℚ) (t : List ℚ) (v : ℚ) :
    countLt (x :: t) v = (if x < v then 1 else 0) + countLt t v := by
  by_cases h : x < v <;> simp [countLt, List.filter_cons, h, Nat.add_comm]

theorem countEq_cons (x : ℚ) (t : List ℚ) (v : ℚ) :
    countEq (x :: t) v = (if x = v then 1 else 0) + countEq t v := by
  by_cases h : x = v <;> simp [countEq, List.filter_cons, h, Nat.add_comm]

theorem countLt_eq_zero_of_lb {xs : List ℚ} {v : ℚ} (h : ∀ y ∈ xs, v ≤ y) :
    countLt xs v = 0 := by
  induction xs with
  | nil => rfl
  | cons x t ih =>
      have hx : ¬ x < v := not_lt.mpr (h x (List.mem_cons_self x t))
      rw [countLt_cons, if_neg hx, ih (fun y hy => h y (List.mem_cons_of_mem x hy))]

theorem countEq_eq_zero_of_not_mem {xs : List ℚ} {v : ℚ} (h : v ∉ xs) :
    countEq xs v = 0 := by
  induction xs with
  | nil => rfl
  | cons x t ih =>
      have hx : x ≠ v := fun e => h (e ▸ List.mem_cons_self x t)
      have ht : v ∉ t := fun e => h (List.mem_cons_of_mem x e)
      rw [countEq_cons, if_neg hx, ih ht]

theorem countEq_eq_one_of_nodup {xs : List ℚ} {v : ℚ} (hnd : xs.Nodup)
    (hv : v ∈ xs) : countEq xs v = 1 := by
  induction xs with
  | nil => cases hv
  | cons x t ih =>
      rcases List.nodup_cons.mp hnd with ⟨hxt, hndt⟩
      rcases List.mem_cons.mp hv with rfl | hvt
      · rw [countEq_cons, if_pos rfl, countEq_eq_zero_of_not_mem hxt]
      · have hx : x ≠ v := fun e => hxt (e ▸ hvt)
        rw [countEq_cons, if_neg hx, ih hndt hvt]

theorem countLt_add_countEq_of_ub {xs : List ℚ} {v : ℚ}
    (h : ∀ y ∈ xs, y ≤ v) : countLt xs v + countEq xs v = xs.length := by
  induction xs with
  | nil => rfl
  | cons x t ih =>
      have hrec := ih (fun y hy => h y (List.mem_cons_of_mem x hy))
      rcases lt_or_eq_of_le (h x (List.mem_cons_self x t)) with hlt | heq
      · have hne : x ≠ v := ne_of_lt hlt
        rw [countLt_cons, countEq_cons, if_pos hlt, if_neg hne]
        simp only [List.length_cons]
        omega
      · have hnlt : ¬ x < v := by rw [heq]; exact lt_irrefl v
        rw [countLt_cons, countEq_cons, if_neg hnlt, if_pos heq]
        simp only [List.length_cons]
        omega

theorem colMin_le {xs : List ℚ} {y : ℚ} (hy : y ∈ xs) : colMin xs ≤ y := by
  induction xs with
  | nil => cases hy
  | cons x t ih =>
      cases t with
      | nil =>
          rcases List.mem_cons.mp hy with rfl | h
          · exact le_of_eq rfl
          · cases h
      | cons z t2 =>
          rw [show colMin (x :: z :: t2) = min x (colMin (z :: t2)) from rfl]
          rcases List.mem_cons.mp hy with rfl | h
          · exact min_le_left _ _
          · exact le_trans (min_le_right _ _) (ih h)

theorem colMin_mem {xs : List ℚ} (h : xs ≠ []) : colMin xs ∈ xs := by
  induction xs with
  | nil => exact absurd rfl h
  | cons x t ih =>
      cases t with
      | nil => exact List.mem_singleton.mpr rfl
      | cons z t2 =>
          rw [show colMin (x :: z :: t2) = min x (colMin (z :: t2)) from rfl]
          rcases min_cases x (colMin (z :: t2)) with ⟨heq, _⟩ | ⟨heq, _⟩
          · rw [heq]; exact List.mem_cons_self _ _
          · rw [heq]
            exact List.mem_cons_of_mem _ (ih (by simp))

theorem le_colMax {xs : List ℚ} {y : ℚ} (hy : y ∈ xs) : y ≤ colMax xs := by
  induction xs with
  | nil => cases hy
  | cons x t ih =>
      cases t with
      | nil =>
          rcases List.mem_cons.mp hy with rfl | h
          · exact le_of_eq rfl
          · cases h
      | cons z t2 =>
          rw [show colMax (x :: z :: t2) = max x (colMax (z :: t2)) from rfl]
          rcases List.mem_cons.mp hy with rfl | h
          · exact le_max_left _ _
          · exact le_trans (ih h) (le_max_right _ _)

theorem colMax_mem {xs : List ℚ} (h : xs ≠ []) : colMax xs ∈ xs := by
  induction xs with
  | nil => exact absurd rfl h
  | cons x t ih =>
      cases t with
      | nil => exact List.mem_singleton.mpr rfl
      | cons z t2 =>
          rw [show colMax (x :: z :: t2) = max x (colMax (z :: t2)) from rfl]
          rcases max_cases x (colMax (z :: t2)) with ⟨heq, _⟩ | ⟨heq, _⟩
          · rw [heq]; exact List.mem_cons_self _ _
          · rw [heq]
            exact List.mem_cons_of_mem _ (ih (by simp))

/-! ## Claim C1: percentile normalization -/

/-- C1 (counterexample): the claim says ties are broken by stable rank
order, but `data.rank()` defaults to `method='average'`: on the constant
column `[1, 1]` the code maps both cells to `1/2`, while stable ranks
would map them to `0` and `1`. -/
theorem percentile_stable_tie_counterexample :
    normPercentileCol [(1 : ℚ), 1] ≠ specPercentileStableCol [(1 : ℚ), 1] := by
  have h1 : normPercentileCol [(1 : ℚ), 1] = [some (1 / 2 : ℚ), some (1 / 2)] := by
    norm_num [normPercentileCol, rankAvg, countLt, countEq, qdiv, List.filter]
  have h2 : specPercentileStableCol [(1 : ℚ), 1] = [some 0, some 1] := by
    norm_num [specPercentileStableCol, qdiv, countLt, countEq,
      List.range_succ, List.filter]
  rw [h1, h2]
  intro h
  have := List.head_eq_of_cons_eq h
  norm_num at this

/-- C1 (amended): percentile normalization maps each cell to (its average
rank within its own column — ties receive the mean of the tied positions —
minus one) divided by `N - 1`; consequently, for a column whose values are
all distinct, each cell maps to (number of strictly smaller column values)
divided by `N - 1`, so the column minimum maps to 0 and the column maximum
maps to 1. -/
theorem percentile_normalization_avg_rank (xs : List ℚ) (hlen : 2 ≤ xs.length)
    (hnd : xs.Nodup) (i : ℕ) (hi : i < xs.length) :
    (normPercentileCol xs).getD i none
        = some ((countLt xs (xs.getD i 0) : ℚ) / ((xs.length : ℚ) - 1))
      ∧ ((∀ y ∈ xs, xs.getD i 0 ≤ y) → (normPercentileCol xs).getD i none = some 0)
      ∧ ((∀ y ∈ xs, y ≤ xs.getD i 0) → (normPercentileCol xs).getD i none = some 1) := by
  have hvget : xs.getD i 0 = xs.get ⟨i, hi⟩ := by
    rw [List.getD_eq_getElem?_getD, List.getElem?_eq_getElem hi]; rfl
  have hv : xs.getD i 0 ∈ xs := by rw [hvget]; exact xs.get_mem i hi
  have hmap : (normPercentileCol xs).getD i none
      = qdiv (rankAvg xs (xs.getD i 0) - 1) ((xs.length : ℚ) - 1) := by
    unfold normPercentileCol
    rw [List.getD_eq_getElem?_getD, List.getElem?_map, List.getElem?_eq_getElem hi,
      hvget]
    rfl
  have hden : ((xs.length : ℚ) - 1) ≠ 0 := by
    have h2 : (2 : ℚ) ≤ (xs.length : ℚ) := by exact_mod_cast hlen
    intro h0
    linarith
  have hEq1 : countEq xs (xs.getD i 0) = 1 := countEq_eq_one_of_nodup hnd hv
  have hrank : rankAvg xs (xs.getD i 0) - 1 = (countLt xs (xs.getD i 0) : ℚ) := by
    unfold rankAvg
    rw [hEq1]
    push_cast
    ring
  refine ⟨?_, ?_, ?_⟩
  · rw [hmap, hrank]
    unfold qdiv
    rw [if_neg hden]
  · intro hlb
    have h0 : countLt xs (xs.getD i 0) = 0 := countLt_eq_zero_of_lb hlb
    rw [hmap, hrank, h0]
    unfold qdiv
    rw [if_neg hden]
    norm_num
  · intro hub
    have hsum := countLt_add_countEq_of_ub hub
    rw [hEq1] at hsum
    have hcast : (countLt xs (xs.getD i 0) : ℚ) = (xs.length : ℚ) - 1 := by
      have : countLt xs (xs.getD i 0) + 1 = xs.length := hsum
      have h2 : ((countLt xs (xs.getD i 0) : ℚ)) + 1 = (xs.length : ℚ) := by
        exact_mod_cast this
      linarith
    rw [hmap, hrank, hcast]
    unfold qdiv
    rw [if_neg hden, div_self hden]

/-- C1 witness: on the all-distinct column `[3, 1, 2]` the minimum (at
position 1) normalizes to 0 and the maximum (at position 0) to 1. -/
theorem percentile_normalization_avg_rank_witness :
    (normPercentileCol [(3 : ℚ), 1, 2]).getD 1 none = some 0
      ∧ (normPercentileCol [(3 : ℚ), 1, 2]).getD 0 none = some 1 :=
  ⟨(percentile_normalization_avg_rank [3, 1, 2] (by decide) (by decide) 1
      (by decide)).2.1 (by decide),
   (percentile_normalization_avg_rank [3, 1, 2] (by decide) (by decide) 0
      (by decide)).2.2 (by decide)⟩

/-! ## Claim C2: range normalization -/

/-- C2: range normalization maps each cell to
`(value - column min) / (column max - column min)`, per column; when the
column is not constant the minimum maps to 0 and the maximum to 1, and a
constant column produces a non-finite result (`none`) for every cell
rather than an error. -/
theorem range_normalization_minmax (xs : List ℚ) (i : ℕ) (hi : i < xs.length) :
    (normRangeCol xs).getD i none
        = qdiv (xs.getD i 0 - colMin xs) (colMax xs - colMin xs)
      ∧ (colMin xs ≠ colMax xs →
          ((∀ y ∈ xs, xs.getD i 0 ≤ y) → (normRangeCol xs).getD i none = some 0)
        ∧ ((∀ y ∈ xs, y ≤ xs.getD i 0) → (normRangeCol xs).getD i none = some 1))
      ∧ ((∀ y ∈ xs, ∀ z ∈ xs, y = z) → (normRangeCol xs).getD i none = none) := by
  have hvget : xs.getD i 0 = xs.get ⟨i, hi⟩ := by
    rw [List.getD_eq_getElem?_getD, List.getElem?_eq_getElem hi]; rfl
  have hv : xs.getD i 0 ∈ xs := by rw [hvget]; exact xs.get_mem i hi
  have hne : xs ≠ [] := by
    intro h
    rw [h] at hi
    exact absurd hi (by simp)
  have hmap : (normRangeCol xs).getD i none
      = qdiv (xs.getD i 0 - colMin xs) (colMax xs - colMin xs) := by
    unfold normRangeCol
    rw [List.getD_eq_getElem?_getD, List.getElem?_map, List.getElem?_eq_getElem hi,
      hvget]
    rfl
  refine ⟨hmap, fun hmm => ⟨?_, ?_⟩, ?_⟩
  · intro hlb
    have hminv : colMin xs = xs.getD i 0 :=
      le_antisymm (colMin_le hv) (hlb _ (colMin_mem hne))
    have hd : colMax xs - colMin xs ≠ 0 :=
      sub_ne_zero_of_ne (Ne.symm hmm)
    rw [hmap, ← hminv, sub_self]
    unfold qdiv
    rw [if_neg hd]
    norm_num
  · intro hub
    have hmaxv : colMax xs = xs.getD i 0 :=
      le_antisymm (hub _ (colMax_mem hne)) (le_colMax hv)
    have hd : colMax xs - colMin xs ≠ 0 :=
      sub_ne_zero_of_ne (Ne.symm hmm)
    rw [hmap, ← hmaxv]
    unfold qdiv
    rw [if_neg hd, div_self hd]
  · intro hconst
    have : colMin xs = colMax xs := hconst _ (colMin_mem hne) _ (colMax_mem hne)
    rw [hmap, this, sub_self]
    unfold qdiv
    rw [if_pos rfl]

/-- C2 witness: on `[1, 3]` the minimum normalizes to 0 and the maximum
to 1; on the constant column `[2, 2]` every cell is non-finite. -/
theorem range_normalization_minmax_witness :
    (normRangeCol [(1 : ℚ), 3]).getD 0 none = some 0
      ∧ (normRangeCol [(1 : ℚ), 3]).getD 1 none = some 1
      ∧ (normRangeCol [(2 : ℚ), 2]).getD 0 none = none :=
  ⟨((range_normalization_minmax [1, 3] 0 (by decide)).2.1 (by decide)).1 (by decide),
   ((range_normalization_minmax [1, 3] 1 (by decide)).2.1 (by decide)).2 (by decide),
   (range_normalization_minmax [2, 2] 0 (by decide)).2.2 (by decide)⟩

/-! ## Claims C3, C4, C5, C6, C8: the `df2heatmap` call -/

/-- C3: when the supplied `nodes` and `colors` sequences have unequal
lengths, the call fails immediately with the explicit precondition
`AssertionError` of line 109, and nothing is rendered and no process-wide
state changes before the failure (the outcome carries `s0` unchanged). -/
theorem gradient_length_mismatch_fails (data : List (List ℚ)) (ns : List ℚ)
    (cs : List String) (cmap : Cmap) (normalize : String) (s0 : HeatState)
    (h : ns.length ≠ cs.length) :
    df2heatmap data (some ns) (some cs) cmap normalize s0
      = ⟨some PyErr.assertLengthMismatch, none, s0⟩ := by
  simp [df2heatmap, Ne.symm h]

/-- C3 witness: two thresholds against one color fail the call with the
length-mismatch assertion and leave the state untouched. -/
theorem gradient_length_mismatch_fails_witness :
    df2heatmap [[(1 : ℚ), 2]] (some [(0 : ℚ), 1]) (some ["green"])
        (Cmap.named "rwb") "percentile" ⟨⟨"DejaVu Sans", ["DejaVu Sans"]⟩, false⟩
      = ⟨some PyErr.assertLengthMismatch, none,
          ⟨⟨"DejaVu Sans", ["DejaVu Sans"]⟩, false⟩⟩ :=
  gradient_length_mismatch_fails _ _ _ _ _ _ (by decide)

/-- C4: a `normalize` argument that is neither "percentile" nor "range"
raises the explicit not-implemented `AssertionError` of line 126 before
any rendering takes place (on every call that passes the line-109 length
check), and never falls back to a default normalization: the outcome
renders nothing and its `rendered` flag is the caller's. -/
theorem unknown_normalization_not_implemented (data : List (List ℚ))
    (ns : List ℚ) (cs : List String) (cmap : Cmap) (normalize : String)
    (s0 : HeatState) (hlen : cs.length = ns.length)
    (hp : normalize ≠ "percentile") (hr : normalize ≠ "range") :
    df2heatmap data (some ns) (some cs) cmap normalize s0
      = ⟨some PyErr.assertNotImplemented, none,
          ⟨⟨"sans-serif", ["Century Gothic"]⟩, s0.rendered⟩⟩ := by
  simp [df2heatmap, hlen, hp, hr]

/-- C4 witness: `normalize='values'` (a mode the docstring TODO mentions
but the code does not implement) raises the not-implemented error and
renders nothing. -/
theorem unknown_normalization_not_implemented_witness :
    df2heatmap [[(1 : ℚ)]] (some [(0 : ℚ)]) (some ["red"]) (Cmap.named "rwb")
        "values" ⟨⟨"DejaVu Sans", ["DejaVu Sans"]⟩, false⟩
      = ⟨some PyErr.assertNotImplemented, none,
          ⟨⟨"sans-serif", ["Century Gothic"]⟩, false⟩⟩ :=
  unknown_normalization_not_implemented _ _ _ _ _ _ (by decide) (by decide)
    (by decide)

/-- C5 (code bug): the claim — and the docstring, which declares `nodes`
and `colors` optional and `cmap` usable as a named colormap, with the
guard of line 115 written for exactly that case — expects a call that
supplies only a named colormap to proceed past gradient construction.  The
code instead evaluates `len(colors)` at line 109 with `colors=None` and
every such call dies with `TypeError: object of type 'NoneType' has no
len()` before anything happens. -/
theorem named_cmap_default_pairs_type_error (data : List (List ℚ))
    (cmap : Cmap) (normalize : String) (s0 : HeatState) :
    df2heatmap data none none cmap normalize s0
      = ⟨some PyErr.typeErrorLenOfNone, none, s0⟩ := rfl

/-- C6: whenever the rendering call is reached, the annotation frame it
receives is the original data (`annot=data`) formatted with `fmt='.2f'`
(two decimal places), while the normalized values feed only the cell
colors. -/
theorem annotation_shows_original_values (data : List (List ℚ))
    (nodes : Option (List ℚ)) (colors : Option (List String)) (cmap : Cmap)
    (normalize : String) (s0 : HeatState) (r : RenderInfo)
    (h : (df2heatmap data nodes colors cmap normalize s0).render = some r) :
    r.annot = data ∧ r.fmt = ".2f"
      ∧ (r.colorData = data.map normPercentileCol
          ∨ r.colorData = data.map normRangeCol) := by
  cases colors with
  | none => simp [df2heatmap] at h
  | some cs =>
    cases nodes with
    | none => simp [df2heatmap] at h
    | some ns =>
      by_cases h1 : cs.length ≠ ns.length
      · simp [df2heatmap, h1] at h
      · by_cases h2 : normalize = "percentile"
        · simp [df2heatmap, h1, h2] at h
          rcases h with rfl
          exact ⟨rfl, rfl, Or.inl rfl⟩
        · by_cases h3 : normalize = "range"
          · simp [df2heatmap, h1, h2, h3] at h
            rcases h with rfl
            exact ⟨rfl, rfl, Or.inr rfl⟩
          · simp [df2heatmap, h1, h2, h3] at h

/-- C6 witness: a concrete percentile-mode call reaches the renderer with
the original values as annotation and format `.2f`. -/
theorem annotation_shows_original_values_witness :
    (RenderInfo.mk ([[(1 : ℚ), 2]].map normPercentileCol) [[(1 : ℚ), 2]]
        ".2f" (Cmap.fromList [((0 : ℚ), "green"), ((1 : ℚ), "red")])).annot
        = [[(1 : ℚ), 2]]
      ∧ (RenderInfo.mk ([[(1 : ℚ), 2]].map normPercentileCol) [[(1 : ℚ), 2]]
          ".2f" (Cmap.fromList [((0 : ℚ), "green"), ((1 : ℚ), "red")])).fmt
        = ".2f"
      ∧ ((RenderInfo.mk ([[(1 : ℚ), 2]].map normPercentileCol) [[(1 : ℚ), 2]]
            ".2f" (Cmap.fromList [((0 : ℚ), "green"), ((1 : ℚ), "red")])).colorData
            = [[(1 : ℚ), 2]].map normPercentileCol
          ∨ (RenderInfo.mk ([[(1 : ℚ), 2]].map normPercentileCol) [[(1 : ℚ), 2]]
              ".2f" (Cmap.fromList [((0 : ℚ), "green"), ((1 : ℚ), "red")])).colorData
            = [[(1 : ℚ), 2]].map normRangeCol) :=
  annotation_shows_original_values [[(1 : ℚ), 2]] (some [(0 : ℚ), 1])
    (some ["green", "red"]) (Cmap.named "rwb") "percentile"
    ⟨⟨"DejaVu Sans", ["DejaVu Sans"]⟩, false⟩ _ rfl

/-- C8 (counterexample): the claim says a call leaves no process-wide
configuration changed, but a successful `df2heatmap` call overwrites the
global font `rcParams` (lines 112-113): starting from matplotlib's default
font configuration, the state after the call differs from it. -/
theorem rcparams_mutation_counterexample :
    (df2heatmap [[(1 : ℚ)]] (some [(0 : ℚ)]) (some ["white"]) (Cmap.named "rwb")
        "percentile" ⟨⟨"DejaVu Sans", ["DejaVu Sans"]⟩, false⟩).state.rc
      ≠ ⟨"DejaVu Sans", ["DejaVu Sans"]⟩ := by
  decide

/-- C8 (amended): `df2table` touches no process-wide configuration, but
`df2heatmap` mutates the global font configuration: after any call the
global `rcParams` are either untouched (the call died at line 109) or set
to `font.family='sans-serif'`, `font.sans-serif=['Century Gothic']`, a
process-wide change that outlives the call and that successive calls
observe. -/
theorem rcparams_font_only (data : List (List ℚ)) (nodes : Option (List ℚ))
    (colors : Option (List String)) (cmap : Cmap) (normalize : String)
    (s0 : HeatState) :
    (df2heatmap data nodes colors cmap normalize s0).state.rc = s0.rc
      ∨ (df2heatmap data nodes colors cmap normalize s0).state.rc
        = ⟨"sans-serif", ["Century Gothic"]⟩ := by
  cases colors with
  | none => exact Or.inl rfl
  | some cs =>
    cases nodes with
    | none => exact Or.inl rfl
    | some ns =>
      by_cases h1 : cs.length ≠ ns.length
      · left
        simp [df2heatmap, h1]
      · by_cases h2 : normalize = "percentile"
        · right
          simp [df2heatmap, h1, h2]
        · by_cases h3 : normalize = "range"
          · right
            simp [df2heatmap, h1, h2, h3]
          · right
            simp [df2heatmap, h1, h2, h3]

/-! ## Helper lemmas about the `df2table` pipeline -/

theorem df2table_cellText_eq (data : Frame) (rounding : Option ℕ)
    (indexName : Option String) (fmtDate : String → ℕ → String)
    (dateFormat : String) (savePath : Option String)
    (showTable saveOk showOk : Bool) :
    (df2table data rounding indexName fmtDate dateFormat savePath showTable
        saveOk showOk).cellText
      = frameValues (df2tablePipeline rounding indexName fmtDate dateFormat
          ⟨[data], 0⟩).cur := by
  unfold df2table
  split
  · rfl
  · split
    · rfl
    · rfl

theorem df2table_callerAfter_eq (data : Frame) (rounding : Option ℕ)
    (indexName : Option String) (fmtDate : String → ℕ → String)
    (dateFormat : String) (savePath : Option String)
    (showTable saveOk showOk : Bool) :
    (df2table data rounding indexName fmtDate dateFormat savePath showTable
        saveOk showOk).callerAfter
      = (df2tablePipeline rounding indexName fmtDate dateFormat
          ⟨[data], 0⟩).heap.getD 0 default := by
  unfold df2table
  split
  · rfl
  · split
    · rfl
    · rfl

theorem frameValues_cellAt (f : Frame) {i j : ℕ} {cj : String × List Cell}
    {c : Cell} (hi : i < f.idx.len) (hj : f.cols[j]? = some cj)
    (hc : cj.2[i]? = some c) :
    cellAt (frameValues f) i j = some c := by
  unfold cellAt frameValues
  rw [List.getElem?_map, List.getElem?_range hi]
  simp only [Option.map_some', Option.some_bind]
  rw [List.getElem?_map, hj]
  simp only [Option.map_some', Option.some_inj]
  rw [List.getD_eq_getElem?_getD, hc]
  rfl

theorem map_applyRounding_none (l : List Cell) : l.map (applyRounding none) = l := by
  induction l with
  | nil => rfl
  | cons x t ih => simp only [List.map_cons, ih]; rfl

theorem map_applyRounding_some (k : ℕ) (l : List Cell) :
    l.map (applyRounding (some k)) = l.map (roundCell k) := rfl

theorem pipeline_cols_getElem (rounding : Option ℕ) (indexName : Option String)
    (fmtDate : String → ℕ → String) (dateFormat : String) (data : Frame)
    (j : ℕ) (cj : String × List Cell) (hj : data.cols[j]? = some cj) :
    (df2tablePipeline rounding indexName fmtDate dateFormat
        ⟨[data], 0⟩).cur.cols[j + 1]?
      = some (cj.1, cj.2.map (applyRounding rounding)) := by
  obtain ⟨idx, cols⟩ := data
  cases idx <;> cases rounding <;> cases indexName <;>
    simp [df2tablePipeline, stCopy, stRebind, stMutate, PyState.cur,
      roundFrame, setIndexName, strftimeIndex, resetIndex, Frame.isDatetime,
      Idx.setName, List.getElem?_map, hj, map_applyRounding_none,
      map_applyRounding_some]

theorem pipeline_idx_len (rounding : Option ℕ) (indexName : Option String)
    (fmtDate : String → ℕ → String) (dateFormat : String) (data : Frame) :
    (df2tablePipeline rounding indexName fmtDate dateFormat
        ⟨[data], 0⟩).cur.idx.len = data.idx.len := by
  obtain ⟨idx, cols⟩ := data
  cases idx <;> cases rounding <;> cases indexName <;>
    simp [df2tablePipeline, stCopy, stRebind, stMutate, PyState.cur,
      roundFrame, setIndexName, strftimeIndex, resetIndex, Frame.isDatetime,
      Idx.setName, Idx.len, Idx.cells, Idx.axisName]

/-! ## Claims C7, C9, C10: the `df2table` call -/

/-- C7: in the rendered table, the data cell at row `i` and column `j + 1`
(column 0 holds the former index) is the source cell unchanged when
`rounding is None`, and the source cell rounded to `k` decimal places when
a precision `k` is supplied — on every call, whatever the index options
and export/preview outcomes. -/
theorem df2table_rounding_applied (data : Frame) (rounding : Option ℕ)
    (indexName : Option String) (fmtDate : String → ℕ → String)
    (dateFormat : String) (savePath : Option String)
    (showTable saveOk showOk : Bool) (i j : ℕ) (cj : String × List Cell)
    (c : Cell) (hi : i < data.idx.len) (hj : data.cols[j]? = some cj)
    (hc : cj.2[i]? = some c) :
    cellAt (df2table data rounding indexName fmtDate dateFormat savePath
        showTable saveOk showOk).cellText i (j + 1)
      = some (applyRounding rounding c) := by
  rw [df2table_cellText_eq]
  refine frameValues_cellAt _ ?_ (pipeline_cols_getElem _ _ _ _ _ _ _ hj) ?_
  · rw [pipeline_idx_len]
    exact hi
  · rw [List.getElem?_map, hc]
    rfl

/-- C7 witness: with `rounding=1` the single data cell `5/4` reaches the
table as its rounded value. -/
theorem df2table_rounding_applied_witness :
    cellAt (df2table ⟨Idx.plain none [Cell.str "r0"], [("A", [Cell.num (5 / 4)])]⟩
        (some 1) none (fun _ _ => "") "" none false true true).cellText 0 1
      = some (applyRounding (some 1) (Cell.num (5 / 4))) :=
  df2table_rounding_applied _ _ _ _ _ _ _ _ _ 0 0 ("A", [Cell.num (5 / 4)])
    (Cell.num (5 / 4)) (by decide) rfl rfl

/-- C9 (counterexample): the claim says the figure is always closed
regardless of the outcome of the export step, but the source has no
`try`/`finally`: when `plt.savefig` raises, the exception propagates and
`plt.close()` (line 76) never runs. -/
theorem close_skipped_on_save_failure :
    (df2table ⟨Idx.plain none [Cell.str "r0"], [("A", [Cell.num 1])]⟩ none none
        (fun _ _ => "") "" (some "out.pdf") false false true).raised
        = some PyErr.saveFailed
      ∧ (df2table ⟨Idx.plain none [Cell.str "r0"], [("A", [Cell.num 1])]⟩ none
          none (fun _ _ => "") "" (some "out.pdf") false false true).closed
        = false :=
  ⟨rfl, rfl⟩

/-- C9 (amended): `df2table` closes the figure before returning on every
path on which the export and preview steps return normally — whether or
not an export path was given and whether or not a preview was requested;
when an export/preview step raises, the exception propagates with the
figure left open. -/
theorem df2table_closes_figure (data : Frame) (rounding : Option ℕ)
    (indexName : Option String) (fmtDate : String → ℕ → String)
    (dateFormat : String) (savePath : Option String)
    (showTable saveOk showOk : Bool)
    (hsave : savePath.isSome = true → saveOk = true)
    (hshow : showTable = true → showOk = true) :
    (df2table data rounding indexName fmtDate dateFormat savePath showTable
        saveOk showOk).closed = true := by
  have h1 : (savePath.isSome && !saveOk) = false := by
    cases hp : savePath.isSome
    · simp
    · simp [hsave hp]
  have h2 : (showTable && !showOk) = false := by
    cases hs : showTable
    · simp
    · simp [hshow hs]
  simp [df2table, h1, h2]

/-- C9 witness: a call that exports and previews successfully closes the
figure. -/
theorem df2table_closes_figure_witness :
    (df2table ⟨Idx.plain none [Cell.str "r0"], [("A", [Cell.num 1])]⟩ none none
        (fun _ _ => "") "" (some "out.pdf") true true true).closed = true :=
  df2table_closes_figure _ _ _ _ _ _ _ _ _ (fun _ => rfl) (fun _ => rfl)

/-- C10: `df2table` never mutates the caller-supplied frame: rounding,
index renaming, date-index reformatting and index resetting all happen on
the `data.copy()` of line 35 (a fresh heap object), so the caller's object
(heap slot 0) is identical after the call — values, index and index name
included. -/
theorem df2table_caller_frame_unchanged (data : Frame) (rounding : Option ℕ)
    (indexName : Option String) (fmtDate : String → ℕ → String)
    (dateFormat : String) (savePath : Option String)
    (showTable saveOk showOk : Bool) :
    (df2table data rounding indexName fmtDate dateFormat savePath showTable
        saveOk showOk).callerAfter = data := by
  rw [df2table_callerAfter_eq]
  obtain ⟨idx, cols⟩ := data
  cases idx <;> cases rounding <;> cases indexName <;>
    simp [df2tablePipeline, stCopy, stRebind, stMutate, PyState.cur,
      roundFrame, setIndexName, strftimeIndex, resetIndex, Frame.isDatetime,
      Idx.setName]

end Df2pdf
